import Mathlib

/-!
# Verification of the consul-backup snapshot pipeline

Shallow embedding of `main.go` of the PM-Connect/consul-backup repository.

The program captures a consul snapshot, restores it into an ephemeral local
consul agent, compares the restored key listing against the live one
(coverage check plus a 1000-byte total-size tolerance check), and on success
uploads the snapshot bytes to S3 with a bounded retry loop (3 retries with a
5-second sleep after each failure, 4 attempts total).

Modelling conventions:
* Go `int64` byte totals are modelled as unbounded `Int`: the totals are sums
  of `len(kv.Value)` values, which cannot approach `2^63` in any reachable
  state, so overflow never occurs and the wrap-free model is exact.
* Each consul `KVPair` is projected to its key and `len(kv.Value)`, which is
  the only data the program ever reads from a pair (the spec's `KeyRecord`).
* External effects (consul snapshot save/restore, KV listings, S3 `PutObject`)
  are oracle inputs in `PipelineWorld`, and the calls the program issues are
  recorded in an event trace (`Ev`), so that ordering and absence of calls
  are provable facts.
-/

/-- A consul KV entry as the program observes it: its key and the byte length
of its value (`len(kv.Value)` is the only use of the value in `main.go`). -/
structure KV where
  key : String
  valueLen : Nat
deriving DecidableEq, Repr

/-- The outcome of the verification comparison in `main` (lines 140-162 of
`main.go`).  `failedMissing k` records the first live key found absent from
the restored listing (the program logs that key and exits).  `failedSize got
expected` records the two totals in the order the log message reports them:
`got` is the restored (snapshot) total, `expected` the live total. -/
inductive Verdict where
  | passed
  | failedMissing (key : String)
  | failedSize (got expected : Int)
deriving DecidableEq, Repr

/-- `Target` from `main.go`: scheme, host, path and query of the parsed target
URI.  `options` keeps the raw query string; the program only ever reads the
`region` option, which feeds AWS session construction (modelled by the
`newSessionErr` oracle, not observable in the event trace). -/
structure Target where
  type : String
  base : String
  path : String
  options : String
deriving DecidableEq, Repr

/-- `contains` from `main.go` (lines 242-249): linear membership scan. -/
def contains : List String → String → Bool
  | [], _ => false
  | a :: rest, e => if a = e then true else contains rest e

/-- The first loop of the comparison (lines 144-147): one pass that appends
each restored key to `snapshotKeys` and adds its value length to
`snapshotTotalBytes`.  The accumulator is the pair (keys so far, bytes so far). -/
def snapAccum : List KV → List String × Int → List String × Int
  | [], acc => acc
  | kv :: rest, acc => snapAccum rest (acc.1 ++ [kv.key], acc.2 + (kv.valueLen : Int))

/-- The second loop of the comparison (lines 149-155): accumulate the live
total, and exit with the offending key as soon as a live key is not contained
in the restored key list. -/
def liveLoop (snapshotKeys : List String) : List KV → Int → Except String Int
  | [], liveTotalBytes => .ok liveTotalBytes
  | kv :: rest, liveTotalBytes =>
    let acc := liveTotalBytes + (kv.valueLen : Int)
    if contains snapshotKeys kv.key then liveLoop snapshotKeys rest acc
    else .error kv.key

/-- The verification comparison of `main` (lines 140-162): build the restored
key list and total, walk the live listing failing on the first missing key,
then apply the 1000-byte total-size tolerance check. -/
def verify (snapshotKvs liveKvs : List KV) : Verdict :=
  let acc := snapAccum snapshotKvs ([], 0)
  let snapshotKeys := acc.1
  let snapshotTotalBytes := acc.2
  match liveLoop snapshotKeys liveKvs 0 with
  | .error k => .failedMissing k
  | .ok liveTotalBytes =>
    if liveTotalBytes < snapshotTotalBytes - 1000 ∨ liveTotalBytes > snapshotTotalBytes + 1000 then
      .failedSize snapshotTotalBytes liveTotalBytes
    else .passed

/-- Mathematical characterisation of a listing's total value byte length,
used to state properties of `snapAccum`/`liveLoop`. -/
def totalBytes : List KV → Int
  | [] => 0
  | kv :: rest => (kv.valueLen : Int) + totalBytes rest

/-- The coverage check of the spec: every live key occurs among the restored
keys. -/
def coverageOk (snapshotKvs liveKvs : List KV) : Prop :=
  ∀ kv ∈ liveKvs, kv.key ∈ snapshotKvs.map KV.key

/-- The size check of the spec: the total value byte lengths of the two
listings differ by at most the fixed 1000-byte tolerance. -/
def sizeOk (snapshotKvs liveKvs : List KV) : Prop :=
  (totalBytes liveKvs - totalBytes snapshotKvs).natAbs ≤ 1000

instance (s l : List KV) : Decidable (coverageOk s l) := by
  unfold coverageOk; infer_instance

instance (s l : List KV) : Decidable (sizeOk s l) := by
  unfold sizeOk; infer_instance

theorem contains_eq_true_iff (s : List String) (e : String) :
    contains s e = true ↔ e ∈ s := by
  induction s with
  | nil => simp [contains]
  | cons a rest ih =>
    rw [contains]
    by_cases h : a = e
    · simp [h]
    · simp only [h, if_false, ih, List.mem_cons]
      constructor
      · intro h'; exact Or.inr h'
      · rintro (rfl | h')
        · exact absurd rfl h
        · exact h'

theorem snapAccum_spec (kvs : List KV) :
    ∀ keys total, snapAccum kvs (keys, total) = (keys ++ kvs.map KV.key, total + totalBytes kvs) := by
  induction kvs with
  | nil => intro keys total; simp [snapAccum, totalBytes]
  | cons kv rest ih =>
    intro keys total
    show snapAccum rest (keys ++ [kv.key], total + (kv.valueLen : Int)) = _
    rw [ih]
    simp only [Prod.mk.injEq, totalBytes]
    exact ⟨by simp, by omega⟩

theorem liveLoop_ok_iff (sk : List String) (kvs : List KV) :
    ∀ acc t, liveLoop sk kvs acc = .ok t ↔
      ((∀ kv ∈ kvs, contains sk kv.key = true) ∧ t = acc + totalBytes kvs) := by
  induction kvs with
  | nil =>
    intro acc t
    rw [liveLoop]
    constructor
    · intro h
      injection h with h
      exact ⟨fun kv hkv => absurd hkv (List.not_mem_nil kv), by simp [totalBytes, h]⟩
    · rintro ⟨-, rfl⟩
      simp [totalBytes]
  | cons kv rest ih =>
    intro acc t
    by_cases h : contains sk kv.key
    · rw [liveLoop]
      simp only [h, if_true, ih, totalBytes]
      constructor
      · rintro ⟨hall, ht⟩
        refine ⟨?_, by omega⟩
        intro x hx
        rcases List.mem_cons.mp hx with h' | h'
        · subst h'; exact h
        · exact hall x h'
      · rintro ⟨hall, ht⟩
        exact ⟨fun x hx => hall x (List.mem_cons_of_mem _ hx), by omega⟩
    · rw [liveLoop]
      simp only [h, if_false]
      constructor
      · intro hc; cases hc
      · rintro ⟨hall, -⟩
        exact absurd (hall kv (List.mem_cons_self kv rest)) h

theorem liveLoop_error_spec (sk : List String) (kvs : List KV) :
    ∀ acc k, liveLoop sk kvs acc = .error k →
      contains sk k = false ∧ k ∈ kvs.map KV.key := by
  induction kvs with
  | nil => intro acc k h; simp [liveLoop] at h
  | cons kv rest ih =>
    intro acc k h
    rw [liveLoop] at h
    by_cases hc : contains sk kv.key
    · simp only [hc, if_true] at h
      obtain ⟨h1, h2⟩ := ih _ _ h
      exact ⟨h1, List.mem_cons_of_mem _ h2⟩
    · simp only [hc, if_false] at h
      cases h
      exact ⟨Bool.eq_false_iff.mpr hc, List.mem_cons_self _ _⟩

theorem liveLoop_error_exists (sk : List String) (kvs : List KV) (acc : Int)
    (h : ∃ kv ∈ kvs, contains sk kv.key = false) :
    ∃ k, liveLoop sk kvs acc = .error k := by
  cases heq : liveLoop sk kvs acc with
  | ok t =>
    obtain ⟨kv, hkv, hc⟩ := h
    have := (liveLoop_ok_iff sk kvs acc t).mp heq
    rw [this.1 kv hkv] at hc
    cases hc
  | error k => exact ⟨k, rfl⟩

/-- The verdict is `passed` exactly when the coverage check and the size check
both hold. -/
theorem verify_passed_iff (snap live : List KV) :
    verify snap live = .passed ↔ coverageOk snap live ∧ sizeOk snap live := by
  unfold verify
  rw [snapAccum_spec]
  simp only [List.nil_append, Int.zero_add]
  cases hl : liveLoop (snap.map KV.key) live 0 with
  | error k =>
    obtain ⟨hc, hk⟩ := liveLoop_error_spec _ _ _ _ hl
    simp only [iff_false, coverageOk]
    constructor
    · intro h; cases h
    · rintro ⟨hall, -⟩
      obtain ⟨kv, hkv, rfl⟩ := List.mem_map.mp hk
      have := (contains_eq_true_iff (snap.map KV.key) kv.key).mpr (hall kv hkv)
      rw [this] at hc
      cases hc
  | ok t =>
    obtain ⟨hall, rfl⟩ := (liveLoop_ok_iff _ _ _ _).mp hl
    simp only [Int.zero_add]
    by_cases hsz : totalBytes live < totalBytes snap - 1000 ∨ totalBytes live > totalBytes snap + 1000
    · simp only [hsz, if_true]
      constructor
      · intro h; cases h
      · rintro ⟨-, hs⟩
        unfold sizeOk at hs
        omega
    · simp only [hsz, if_false, true_iff]
      refine ⟨fun kv hkv => (contains_eq_true_iff _ _).mp (hall kv hkv), ?_⟩
      unfold sizeOk
      omega

/-- If some live key is missing from the restored keys, the verdict is
`failedMissing` at a genuinely missing key. -/
theorem verify_missing (snap live : List KV)
    (h : ∃ kv ∈ live, kv.key ∉ snap.map KV.key) :
    ∃ k, verify snap live = .failedMissing k ∧
      k ∈ live.map KV.key ∧ k ∉ snap.map KV.key := by
  have hex : ∃ kv ∈ live, contains (snap.map KV.key) kv.key = false := by
    obtain ⟨kv, hkv, hmem⟩ := h
    exact ⟨kv, hkv, by
      cases hc : contains (snap.map KV.key) kv.key with
      | false => rfl
      | true => exact absurd ((contains_eq_true_iff _ _).mp hc) hmem⟩
  obtain ⟨k, hk⟩ := liveLoop_error_exists (snap.map KV.key) live 0 hex
  obtain ⟨hc, hmem⟩ := liveLoop_error_spec _ _ _ _ hk
  refine ⟨k, ?_, hmem, ?_⟩
  · unfold verify
    rw [snapAccum_spec]
    simp only [List.nil_append, Int.zero_add]
    rw [hk]
  · intro hmem2
    rw [(contains_eq_true_iff _ _).mpr hmem2] at hc
    cases hc

/-- With full coverage, the verdict is decided by the size check alone, and a
size failure records the two totals. -/
theorem verify_covered (snap live : List KV) (hcov : coverageOk snap live) :
    verify snap live =
      if (totalBytes live - totalBytes snap).natAbs > 1000 then
        .failedSize (totalBytes snap) (totalBytes live)
      else .passed := by
  unfold verify
  rw [snapAccum_spec]
  simp only [List.nil_append, Int.zero_add]
  have hok : liveLoop (snap.map KV.key) live 0 = .ok (0 + totalBytes live) :=
    (liveLoop_ok_iff _ _ _ _).mpr
      ⟨fun kv hkv => (contains_eq_true_iff _ _).mpr (hcov kv hkv), rfl⟩
  rw [hok]
  simp only [Int.zero_add]
  by_cases hsz : totalBytes live < totalBytes snap - 1000 ∨ totalBytes live > totalBytes snap + 1000
  · have : (totalBytes live - totalBytes snap).natAbs > 1000 := by omega
    simp [hsz, this]
  · have : ¬ (totalBytes live - totalBytes snap).natAbs > 1000 := by omega
    simp [hsz, this]

/-- Observable calls the pipeline issues, in order.  `putObject` records the
bucket, object key and the bytes submitted to the storage backend;
`warnRetry n` is the warning logged at the start of retry `n`; the two sleep
events record the fixed waits (2 seconds before the readiness probe-free
restore, 5 seconds between upload attempts). -/
inductive Ev where
  | snapshotSave
  | sleepReady (seconds : Nat)
  | restore
  | kvListDummy
  | kvListLive
  | putObject (bucket key : String) (body : List Nat)
  | warnRetry (n : Nat)
  | sleepRetry (seconds : Nat)
deriving DecidableEq, Repr

/-- `bytes.Reader`: an immutable byte slice plus a read position.
`bytes.NewReader` starts at position zero; the bytes an attempt submits are
the bytes from the current position. -/
structure ByteReader where
  data : List Nat
  pos : Nat
deriving DecidableEq, Repr

/-- `bytes.NewReader(*snapshot)`: a fresh reader over the blob at position 0. -/
def ByteReader.new (bs : List Nat) : ByteReader := ⟨bs, 0⟩

/-- The bytes remaining to be read from the reader's current position. -/
def ByteReader.remaining (r : ByteReader) : List Nat := r.data.drop r.pos

def isPutEv : Ev → Bool
  | .putObject _ _ _ => true
  | _ => false

def isListLiveEv : Ev → Bool
  | .kvListLive => true
  | _ => false

/-- The retry loop of `sendToS3` (lines 201-210): `for err != nil && retries < 3`.
`fuel` encodes the remaining loop budget, so `fuel = 3 - retries` at every
call; the guard `retries < 3` of the source is exactly `fuel > 0`.  Each
iteration increments `retries`, logs a warning, sleeps 5 seconds, builds a
fresh `bytes.NewReader` over the unchanged snapshot and re-issues `PutObject`
(the result of attempt `n` is the oracle value `put n`). -/
def s3Retry (target : Target) (s3Path : String) (snapshot : List Nat)
    (put : Nat → Option String) : Nat → Nat → Option String → Option String × List Ev
  | _, _, none => (none, [])
  | 0, _, some e => (some e, [])
  | fuel + 1, retries, some _ =>
    let retries' := retries + 1
    let reader := ByteReader.new snapshot
    let err' := put retries'
    let rest := s3Retry target s3Path snapshot put fuel retries' err'
    (rest.1,
      Ev.warnRetry retries' :: Ev.sleepRetry 5 ::
        Ev.putObject target.base s3Path reader.remaining :: rest.2)

/-- `sendToS3` (lines 180-219): construct the AWS session (its only possible
failure is the `newSessionErr` oracle; no network is involved), compose the
object key as `target.Path + "/" + snapshotKey`, issue the first `PutObject`
with a fresh reader over the snapshot, then run the bounded retry loop.
Returns the final error (if any) and the list of observable calls. -/
def sendToS3 (target : Target) (snapshotKey : String) (snapshot : List Nat)
    (newSessionErr : Option String) (put : Nat → Option String) :
    Option String × List Ev :=
  match newSessionErr with
  | some e => (some e, [])
  | none =>
    let s3Path := target.path ++ "/" ++ snapshotKey
    let reader := ByteReader.new snapshot
    let err0 := put 0
    let rest := s3Retry target s3Path snapshot put 3 0 err0
    (rest.1, Ev.putObject target.base s3Path reader.remaining :: rest.2)

/-- The provider switch of `main` (lines 166-172): the `"s3"` case calls
`sendToS3`, every other scheme produces the unsupported-target error without
constructing a provider client or issuing any call. -/
def dispatchUpload (target : Target) (snapshotKey : String) (snapshot : List Nat)
    (newSessionErr : Option String) (put : Nat → Option String) :
    Option String × List Ev :=
  if target.type = "s3" then sendToS3 target snapshotKey snapshot newSessionErr put
  else (some ("target type of " ++ target.type ++ " is not supported"), [])

/-- `fmt.Sprintf("%d.snap", time.Now().Unix())` (line 164): the artifact name
from the clock reading taken for this run. -/
def artifactName (now : Int) : String := toString now ++ ".snap"

/-- The outcomes of every fallible external step of one run, plus the data the
externals return.  `putResult n` is the error (or `none` for success) of
`PutObject` attempt `n`.  The two KV listings are the values the program
iterates over; `main.go` ignores the error results of both `KV().List` calls,
so a failed listing behaves as an empty one and needs no oracle of its own. -/
structure PipelineWorld where
  newClientErr : Option String
  saveErr : Option String
  readErr : Option String
  agentNewErr : Option String
  agentStartErr : Option String
  dummyClientErr : Option String
  restoreErr : Option String
  snapshotBytes : List Nat
  snapshotKvs : List KV
  liveKvs : List KV
  now : Int
  newSessionErr : Option String
  putResult : Nat → Option String

/-- The result of a run: the process exit code, the last logged error, and
the trace of observable calls. -/
structure RunResult where
  exitCode : Nat
  errMsg : Option String
  trace : List Ev
deriving DecidableEq, Repr

/-- `main` from after target parsing to exit (lines 69-178): client creation,
snapshot save and read, dummy agent construction and start, the fixed
2-second readiness sleep, restore, the two KV listings, the verification
comparison, artifact naming, and the provider dispatch.  Every failure is
terminal with exit code 1, as in the source. -/
def runPipeline (target : Target) (w : PipelineWorld) : RunResult :=
  match w.newClientErr with
  | some e => ⟨1, some ("error creating consul client: " ++ e), []⟩
  | none =>
  match w.saveErr with
  | some e => ⟨1, some ("error fetching consul snapshot: " ++ e), [.snapshotSave]⟩
  | none =>
  match w.readErr with
  | some e => ⟨1, some ("error reading consul snapshot: " ++ e), [.snapshotSave]⟩
  | none =>
  match w.agentNewErr with
  | some e => ⟨1, some ("error starting dummy consul agent to test snapshot: " ++ e), [.snapshotSave]⟩
  | none =>
  match w.agentStartErr with
  | some e => ⟨1, some ("error starting dummy consul agent to test snapshot: " ++ e), [.snapshotSave]⟩
  | none =>
  match w.dummyClientErr with
  | some e => ⟨1, some ("error creating dummy consul client to test snapshot: " ++ e), [.snapshotSave]⟩
  | none =>
  match w.restoreErr with
  | some e => ⟨1, some ("error restoring snapshot to dummy consul agent: " ++ e),
      [.snapshotSave, .sleepReady 2, .restore]⟩
  | none =>
  match verify w.snapshotKvs w.liveKvs with
  | .failedMissing k => ⟨1, some ("key " ++ k ++ " was not found in the snapshot"),
      [.snapshotSave, .sleepReady 2, .restore, .kvListDummy, .kvListLive]⟩
  | .failedSize got expected => ⟨1,
      some ("different snapshot kv size detected, got " ++ toString got ++
        " expected " ++ toString expected),
      [.snapshotSave, .sleepReady 2, .restore, .kvListDummy, .kvListLive]⟩
  | .passed =>
    let snapshotKey := artifactName w.now
    let res := dispatchUpload target snapshotKey w.snapshotBytes w.newSessionErr w.putResult
    match res.1 with
    | some e => ⟨1, some ("error uploading to s3: " ++ e),
        [.snapshotSave, .sleepReady 2, .restore, .kvListDummy, .kvListLive] ++ res.2⟩
    | none => ⟨0, none,
        [.snapshotSave, .sleepReady 2, .restore, .kvListDummy, .kvListLive] ++ res.2⟩

/-- The five observable calls every run issues before the provider dispatch:
snapshot save, the fixed readiness sleep, restore, and the two KV listings. -/
def preTrace : List Ev :=
  [.snapshotSave, .sleepReady 2, .restore, .kvListDummy, .kvListLive]

theorem s3Retry_none_eq (target : Target) (s3Path : String) (snapshot : List Nat)
    (put : Nat → Option String) (fuel retries : Nat) :
    s3Retry target s3Path snapshot put fuel retries none = (none, []) := by
  cases fuel <;> rfl

theorem s3Retry_zero_eq (target : Target) (s3Path : String) (snapshot : List Nat)
    (put : Nat → Option String) (retries : Nat) (e : String) :
    s3Retry target s3Path snapshot put 0 retries (some e) = (some e, []) := rfl

theorem s3Retry_succ_eq (target : Target) (s3Path : String) (snapshot : List Nat)
    (put : Nat → Option String) (fuel retries : Nat) (e : String) :
    s3Retry target s3Path snapshot put (fuel + 1) retries (some e) =
      ((s3Retry target s3Path snapshot put fuel (retries + 1) (put (retries + 1))).1,
        Ev.warnRetry (retries + 1) :: Ev.sleepRetry 5 ::
          Ev.putObject target.base s3Path snapshot ::
            (s3Retry target s3Path snapshot put fuel (retries + 1) (put (retries + 1))).2) := rfl

theorem sendToS3_sessionErr_eq (target : Target) (snapshotKey : String) (snapshot : List Nat)
    (put : Nat → Option String) (e : String) :
    sendToS3 target snapshotKey snapshot (some e) put = (some e, []) := rfl

theorem sendToS3_session_ok_eq (target : Target) (snapshotKey : String) (snapshot : List Nat)
    (put : Nat → Option String) :
    sendToS3 target snapshotKey snapshot none put =
      ((s3Retry target (target.path ++ "/" ++ snapshotKey) snapshot put 3 0 (put 0)).1,
        Ev.putObject target.base (target.path ++ "/" ++ snapshotKey) snapshot ::
          (s3Retry target (target.path ++ "/" ++ snapshotKey) snapshot put 3 0 (put 0)).2) := rfl

/-- Every `PutObject` call the retry loop issues addresses the composed bucket
and key and submits exactly the snapshot bytes. -/
theorem s3Retry_put_mem (target : Target) (s3Path : String) (snapshot : List Nat)
    (put : Nat → Option String) :
    ∀ fuel retries err b k body,
      Ev.putObject b k body ∈ (s3Retry target s3Path snapshot put fuel retries err).2 →
      b = target.base ∧ k = s3Path ∧ body = snapshot := by
  intro fuel
  induction fuel with
  | zero =>
    intro retries err b k body h
    cases err with
    | none => rw [s3Retry_none_eq] at h; cases h
    | some e => rw [s3Retry_zero_eq] at h; cases h
  | succ f ih =>
    intro retries err b k body h
    cases err with
    | none => rw [s3Retry_none_eq] at h; cases h
    | some e =>
      rw [s3Retry_succ_eq] at h
      simp only [List.mem_cons] at h
      rcases h with h | h | h | h
      · exact absurd h (by simp)
      · exact absurd h (by simp)
      · injection h with hb hk hbody
        exact ⟨hb, hk, hbody⟩
      · exact ih _ _ _ _ _ h

/-- Every `PutObject` call `sendToS3` issues addresses `target.base` and
`target.path ++ "/" ++ snapshotKey` and submits exactly the snapshot bytes. -/
theorem sendToS3_put_mem (target : Target) (snapshotKey : String) (snapshot : List Nat)
    (sessionErr : Option String) (put : Nat → Option String) :
    ∀ b k body,
      Ev.putObject b k body ∈ (sendToS3 target snapshotKey snapshot sessionErr put).2 →
      b = target.base ∧ k = target.path ++ "/" ++ snapshotKey ∧ body = snapshot := by
  intro b k body h
  cases sessionErr with
  | some e => rw [sendToS3_sessionErr_eq] at h; cases h
  | none =>
    rw [sendToS3_session_ok_eq] at h
    simp only [List.mem_cons] at h
    rcases h with h | h
    · injection h with hb hk hbody
      exact ⟨hb, hk, hbody⟩
    · exact s3Retry_put_mem target _ snapshot put 3 0 (put 0) b k body h

/-- When all four attempts fail, `sendToS3` issues exactly four `PutObject`
calls separated by warning/5-second-sleep pairs and returns the error of the
last attempt. -/
theorem sendToS3_allFail (target : Target) (snapshotKey : String) (snapshot : List Nat)
    (put : Nat → Option String)
    (h0 : (put 0).isSome = true) (h1 : (put 1).isSome = true)
    (h2 : (put 2).isSome = true) (h3 : (put 3).isSome = true) :
    sendToS3 target snapshotKey snapshot none put =
      (put 3,
       [Ev.putObject target.base (target.path ++ "/" ++ snapshotKey) snapshot,
        Ev.warnRetry 1, Ev.sleepRetry 5,
        Ev.putObject target.base (target.path ++ "/" ++ snapshotKey) snapshot,
        Ev.warnRetry 2, Ev.sleepRetry 5,
        Ev.putObject target.base (target.path ++ "/" ++ snapshotKey) snapshot,
        Ev.warnRetry 3, Ev.sleepRetry 5,
        Ev.putObject target.base (target.path ++ "/" ++ snapshotKey) snapshot]) := by
  obtain ⟨e0, he0⟩ := Option.isSome_iff_exists.mp h0
  obtain ⟨e1, he1⟩ := Option.isSome_iff_exists.mp h1
  obtain ⟨e2, he2⟩ := Option.isSome_iff_exists.mp h2
  obtain ⟨e3, he3⟩ := Option.isSome_iff_exists.mp h3
  rw [sendToS3_session_ok_eq, he0, s3Retry_succ_eq, he1, s3Retry_succ_eq, he2,
    s3Retry_succ_eq, he3, s3Retry_zero_eq]

/-- A failed verification verdict makes the run exit 1 and prevents every
upload call (any earlier infrastructure failure also exits 1 without an
upload call, so no hypothesis on the oracles is needed). -/
theorem runPipeline_verify_failed (target : Target) (w : PipelineWorld)
    (h : verify w.snapshotKvs w.liveKvs ≠ .passed) :
    (runPipeline target w).exitCode = 1 ∧
      (runPipeline target w).trace.any isPutEv = false := by
  obtain ⟨nc, se, re, an, ast, dc, rre, sb, skvs, lkvs, now, sess, put⟩ := w
  cases nc with
  | some e => simp [runPipeline, isPutEv]
  | none =>
  cases se with
  | some e => simp [runPipeline, isPutEv]
  | none =>
  cases re with
  | some e => simp [runPipeline, isPutEv]
  | none =>
  cases an with
  | some e => simp [runPipeline, isPutEv]
  | none =>
  cases ast with
  | some e => simp [runPipeline, isPutEv]
  | none =>
  cases dc with
  | some e => simp [runPipeline, isPutEv]
  | none =>
  cases rre with
  | some e => simp [runPipeline, isPutEv]
  | none =>
  cases hv : verify skvs lkvs with
  | passed => exact absurd hv h
  | failedMissing k => simp [runPipeline, hv, isPutEv]
  | failedSize got expected => simp [runPipeline, hv, isPutEv]

/-- No upload call ever appears in the trace before the live key listing that
feeds the verification comparison: the prefix of the trace up to (excluding)
`kvListLive` is free of `putObject` events, for every world. -/
theorem runPipeline_no_put_before_listing (target : Target) (w : PipelineWorld) :
    ((runPipeline target w).trace.takeWhile fun e => !isListLiveEv e).all
      (fun e => !isPutEv e) = true := by
  obtain ⟨nc, se, re, an, ast, dc, rre, sb, skvs, lkvs, now, sess, put⟩ := w
  cases nc with
  | some e => simp [runPipeline, isPutEv, isListLiveEv]
  | none =>
  cases se with
  | some e => simp [runPipeline, isPutEv, isListLiveEv]
  | none =>
  cases re with
  | some e => simp [runPipeline, isPutEv, isListLiveEv]
  | none =>
  cases an with
  | some e => simp [runPipeline, isPutEv, isListLiveEv]
  | none =>
  cases ast with
  | some e => simp [runPipeline, isPutEv, isListLiveEv]
  | none =>
  cases dc with
  | some e => simp [runPipeline, isPutEv, isListLiveEv]
  | none =>
  cases rre with
  | some e => simp [runPipeline, isPutEv, isListLiveEv]
  | none =>
  cases hv : verify skvs lkvs with
  | passed =>
    cases hdr : (dispatchUpload target (artifactName now) sb sess put).1 with
    | some e => simp [runPipeline, hv, hdr, isPutEv, isListLiveEv, List.takeWhile]
    | none => simp [runPipeline, hv, hdr, isPutEv, isListLiveEv, List.takeWhile]
  | failedMissing k => simp [runPipeline, hv, isPutEv, isListLiveEv]
  | failedSize got expected => simp [runPipeline, hv, isPutEv, isListLiveEv]

/-- If the trace contains any upload call, the verification verdict of this
world was `passed` and the target scheme was `"s3"`. -/
theorem runPipeline_put_implies_passed (target : Target) (w : PipelineWorld)
    (h : (runPipeline target w).trace.any isPutEv = true) :
    verify w.snapshotKvs w.liveKvs = .passed ∧ target.type = "s3" := by
  obtain ⟨nc, se, re, an, ast, dc, rre, sb, skvs, lkvs, now, sess, put⟩ := w
  cases nc with
  | some e => simp [runPipeline, isPutEv] at h
  | none =>
  cases se with
  | some e => simp [runPipeline, isPutEv] at h
  | none =>
  cases re with
  | some e => simp [runPipeline, isPutEv] at h
  | none =>
  cases an with
  | some e => simp [runPipeline, isPutEv] at h
  | none =>
  cases ast with
  | some e => simp [runPipeline, isPutEv] at h
  | none =>
  cases dc with
  | some e => simp [runPipeline, isPutEv] at h
  | none =>
  cases rre with
  | some e => simp [runPipeline, isPutEv] at h
  | none =>
  cases hv : verify skvs lkvs with
  | passed =>
    refine ⟨rfl, ?_⟩
    by_cases ht : target.type = "s3"
    · exact ht
    · exfalso
      cases hdr : (dispatchUpload target (artifactName now) sb sess put).1 with
      | some e =>
        rw [runPipeline] at h
        simp only [hv] at h
        simp [dispatchUpload, ht] at h hdr
        simp [h, hdr, isPutEv] at *
      | none =>
        have : (dispatchUpload target (artifactName now) sb sess put).1 =
            some ("target type of " ++ target.type ++ " is not supported") := by
          simp [dispatchUpload, ht]
        rw [hdr] at this
        cases this
  | failedMissing k => simp [runPipeline, hv, isPutEv] at h
  | failedSize got expected => simp [runPipeline, hv, isPutEv] at h

/-- Shape of a fully successful run: verification passed, the target scheme
was `"s3"`, session construction succeeded, the upload succeeded, and the
trace is the five pre-dispatch calls followed by the `sendToS3` calls. -/
theorem runPipeline_exit_zero (target : Target) (w : PipelineWorld)
    (h : (runPipeline target w).exitCode = 0) :
    verify w.snapshotKvs w.liveKvs = .passed ∧ target.type = "s3" ∧
      w.newSessionErr = none ∧
      (sendToS3 target (artifactName w.now) w.snapshotBytes none w.putResult).1 = none ∧
      (runPipeline target w).trace =
        preTrace ++
          (sendToS3 target (artifactName w.now) w.snapshotBytes none w.putResult).2 := by
  obtain ⟨nc, se, re, an, ast, dc, rre, sb, skvs, lkvs, now, sess, put⟩ := w
  cases nc with
  | some e => simp [runPipeline] at h
  | none =>
  cases se with
  | some e => simp [runPipeline] at h
  | none =>
  cases re with
  | some e => simp [runPipeline] at h
  | none =>
  cases an with
  | some e => simp [runPipeline] at h
  | none =>
  cases ast with
  | some e => simp [runPipeline] at h
  | none =>
  cases dc with
  | some e => simp [runPipeline] at h
  | none =>
  cases rre with
  | some e => simp [runPipeline] at h
  | none =>
  cases hv : verify skvs lkvs with
  | failedMissing k => simp [runPipeline, hv] at h
  | failedSize got expected => simp [runPipeline, hv] at h
  | passed =>
    by_cases ht : target.type = "s3"
    · cases sess with
      | some e =>
        have hdr : (dispatchUpload target (artifactName now) sb (some e) put).1 = some e := by
          simp [dispatchUpload, ht, sendToS3_sessionErr_eq]
        rw [runPipeline] at h ⊢
        simp only [hv, hdr] at h ⊢
        simp at h
      | none =>
        cases hdr : (dispatchUpload target (artifactName now) sb none put).1 with
        | some e =>
          rw [runPipeline] at h
          simp only [hv, hdr] at h
          simp at h
        | none =>
          have hdisp : dispatchUpload target (artifactName now) sb none put =
              sendToS3 target (artifactName now) sb none put := by
            simp [dispatchUpload, ht]
          rw [hdisp] at hdr
          refine ⟨rfl, ht, rfl, hdr, ?_⟩
          rw [runPipeline]
          simp only [hv, hdisp, hdr]
          rfl
    · have hdr : (dispatchUpload target (artifactName now) sb sess put).1 =
          some ("target type of " ++ target.type ++ " is not supported") := by
        simp [dispatchUpload, ht]
      rw [runPipeline] at h
      simp only [hv, hdr] at h
      simp at h

/-- An unsupported target scheme makes every run exit 1 without a single
upload call, whatever the rest of the world looks like. -/
theorem runPipeline_unsupported (target : Target) (w : PipelineWorld)
    (ht : target.type ≠ "s3") :
    (runPipeline target w).exitCode = 1 ∧
      (runPipeline target w).trace.any isPutEv = false := by
  obtain ⟨nc, se, re, an, ast, dc, rre, sb, skvs, lkvs, now, sess, put⟩ := w
  cases nc with
  | some e => simp [runPipeline, isPutEv]
  | none =>
  cases se with
  | some e => simp [runPipeline, isPutEv]
  | none =>
  cases re with
  | some e => simp [runPipeline, isPutEv]
  | none =>
  cases an with
  | some e => simp [runPipeline, isPutEv]
  | none =>
  cases ast with
  | some e => simp [runPipeline, isPutEv]
  | none =>
  cases dc with
  | some e => simp [runPipeline, isPutEv]
  | none =>
  cases rre with
  | some e => simp [runPipeline, isPutEv]
  | none =>
  cases hv : verify skvs lkvs with
  | failedMissing k => simp [runPipeline, hv, isPutEv]
  | failedSize got expected => simp [runPipeline, hv, isPutEv]
  | passed =>
    have hdr : (dispatchUpload target (artifactName now) sb sess put).1 =
        some ("target type of " ++ target.type ++ " is not supported") := by
      simp [dispatchUpload, ht]
    have htr : (dispatchUpload target (artifactName now) sb sess put).2 = [] := by
      simp [dispatchUpload, ht]
    rw [runPipeline]
    simp only [hv, hdr, htr]
    simp [isPutEv]

/-- Every run's exit code is 0 or 1. -/
theorem runPipeline_exit_cases (target : Target) (w : PipelineWorld) :
    (runPipeline target w).exitCode = 0 ∨ (runPipeline target w).exitCode = 1 := by
  obtain ⟨nc, se, re, an, ast, dc, rre, sb, skvs, lkvs, now, sess, put⟩ := w
  cases nc with
  | some e => right; rfl
  | none =>
  cases se with
  | some e => right; rfl
  | none =>
  cases re with
  | some e => right; rfl
  | none =>
  cases an with
  | some e => right; rfl
  | none =>
  cases ast with
  | some e => right; rfl
  | none =>
  cases dc with
  | some e => right; rfl
  | none =>
  cases rre with
  | some e => right; rfl
  | none =>
  cases hv : verify skvs lkvs with
  | failedMissing k => right; rw [runPipeline]; simp only [hv]
  | failedSize got expected => right; rw [runPipeline]; simp only [hv]
  | passed =>
    cases hdr : (dispatchUpload target (artifactName now) sb sess put).1 with
    | some e => right; rw [runPipeline]; simp only [hv, hdr]
    | none => left; rw [runPipeline]; simp only [hv, hdr]

/-- When every attempt of this world's `PutObject` oracle fails, the run exits
1 for every target: if the pipeline reaches the upload it exhausts the retry
budget and fails, and every earlier exit is already non-zero. -/
theorem runPipeline_allFail (target : Target) (w : PipelineWorld)
    (hfail : ∀ n, n ≤ 3 → (w.putResult n).isSome = true) :
    (runPipeline target w).exitCode = 1 := by
  rcases runPipeline_exit_cases target w with hx | hx
  · exfalso
    obtain ⟨-, -, -, hsend, -⟩ := runPipeline_exit_zero target w hx
    have h3 := hfail 3 (by omega)
    rw [sendToS3_allFail target (artifactName w.now) w.snapshotBytes w.putResult
      (hfail 0 (by omega)) (hfail 1 (by omega)) (hfail 2 (by omega))
      (hfail 3 (by omega))] at hsend
    simp only [] at hsend
    rw [hsend] at h3
    simp at h3
  · exact hx

/-!
## Target and consul address parsing

`main.go` validates both URLs with `url.ParseRequestURI` (Go 1.12 `net/url`,
per `go.mod`/`Dockerfile`) and rejects a URL when parsing errors, the scheme
is empty, or the host (`Hostname()` for the consul address, `Host` for the
target) is empty.  The model below follows the `viaRequest` code path of
Go 1.12 `url.parse` and its helpers (`getscheme`, `split`, `parseAuthority`,
`parseHost`, `validOptionalPort`, `validUserinfo`, `unescape`, `stripPort`).
Strings are handled as character lists; all reachable inputs are ASCII, where
Go's byte indexing and this model's character indexing agree.  IPv6 zone
identifiers (`%25` inside a bracketed host) are the one unmodelled corner of
`parseHost`; they are irrelevant to every claim and every witness below. -/

/-- Go `ishex`. -/
def ishex (c : Char) : Bool :=
  decide (('0' ≤ c ∧ c ≤ '9') ∨ ('a' ≤ c ∧ c ≤ 'f') ∨ ('A' ≤ c ∧ c ≤ 'F'))

/-- Go `unhex`. -/
def unhex (c : Char) : Nat :=
  if '0' ≤ c ∧ c ≤ '9' then c.toNat - '0'.toNat
  else if 'a' ≤ c ∧ c ≤ 'f' then c.toNat - 'a'.toNat + 10
  else if 'A' ≤ c ∧ c ≤ 'F' then c.toNat - 'A'.toNat + 10
  else 0

/-- Go `shouldEscape(c, encodeHost)`: which literal bytes are forbidden in a
host component. -/
def shouldEscapeHost (c : Char) : Bool :=
  if ('a' ≤ c ∧ c ≤ 'z') ∨ ('A' ≤ c ∧ c ≤ 'Z') ∨ ('0' ≤ c ∧ c ≤ '9') then false
  else if c ∈ ['!', '$', '&', '\'', '(', ')', '*', '+', ',', ';', '=',
      ':', '[', ']', '<', '>', '"'] then false
  else if c ∈ ['-', '_', '.', '~'] then false
  else true

/-- Go `validUserinfo`. -/
def validUserinfo (s : List Char) : Bool :=
  s.all fun r =>
    decide (('A' ≤ r ∧ r ≤ 'Z') ∨ ('a' ≤ r ∧ r ≤ 'z') ∨ ('0' ≤ r ∧ r ≤ '9') ∨
      r ∈ ['-', '.', '_', ':', '~', '!', '$', '&', '\'', '(', ')', '*', '+',
        ',', ';', '=', '%', '@'])

/-- Go `validOptionalPort`: empty, or `':'` followed by digits. -/
def validOptionalPort : List Char → Bool
  | [] => true
  | ':' :: digits => digits.all fun c => decide ('0' ≤ c ∧ c ≤ '9')
  | _ => false

/-- Percent-escape well-formedness, the error condition of Go `unescape` for
the userinfo modes: every `%` must be followed by two hex digits. -/
def percentWellFormed : List Char → Bool
  | [] => true
  | '%' :: a :: b :: rest => if ishex a ∧ ishex b then percentWellFormed rest else false
  | '%' :: _ => false
  | _ :: rest => percentWellFormed rest

/-- Go `unescape(s, encodeHost)`: validates each literal byte against
`shouldEscapeHost`, requires every `%` to carry two hex digits, rejects
percent-escapes of ASCII bytes other than `%25`, and decodes. -/
def unescapeHostAux : List Char → Except String (List Char)
  | [] => .ok []
  | '%' :: a :: b :: rest =>
    if ishex a ∧ ishex b then
      if unhex a < 8 ∧ ¬(a = '2' ∧ b = '5') then .error "invalid URL escape in host"
      else do
        let tail ← unescapeHostAux rest
        .ok (Char.ofNat (unhex a * 16 + unhex b) :: tail)
    else .error "invalid URL escape"
  | '%' :: _ => .error "invalid URL escape"
  | c :: rest =>
    if c.toNat < 0x80 ∧ shouldEscapeHost c then .error "invalid character in host name"
    else do
      let tail ← unescapeHostAux rest
      .ok (c :: tail)

/-- Go `unescape(s, encodePath)`: percent-decoding with well-formedness
errors, no extra byte validation. -/
def unescapePathAux : List Char → Except String (List Char)
  | [] => .ok []
  | '%' :: a :: b :: rest =>
    if ishex a ∧ ishex b then do
      let tail ← unescapePathAux rest
      .ok (Char.ofNat (unhex a * 16 + unhex b) :: tail)
    else .error "invalid URL escape"
  | '%' :: _ => .error "invalid URL escape"
  | c :: rest => do
    let tail ← unescapePathAux rest
    .ok (c :: tail)

def lastIndexAux (c : Char) : List Char → Nat → Option Nat → Option Nat
  | [], _, best => best
  | a :: rest, i, best => lastIndexAux c rest (i + 1) (if a = c then some i else best)

/-- Index of the last occurrence of `c`, Go `strings.LastIndex` for a
one-character separator. -/
def lastIndexOf (s : List Char) (c : Char) : Option Nat := lastIndexAux c s 0 none

def firstIndexAux (c : Char) : List Char → Nat → Option Nat
  | [], _ => none
  | a :: rest, i => if a = c then some i else firstIndexAux c rest (i + 1)

/-- Index of the first occurrence of `c`, Go `strings.IndexByte`. -/
def firstIndexOf (s : List Char) (c : Char) : Option Nat := firstIndexAux c s 0

/-- Go `net/url`'s `split(s, sep, cutc)` for a one-character separator: split
at the first occurrence; `cutc` drops the separator from the second half. -/
def splitOnce (s : List Char) (c : Char) (cutc : Bool) : List Char × List Char :=
  match s with
  | [] => ([], [])
  | a :: rest =>
    if a = c then ([], if cutc then rest else a :: rest)
    else
      let p := splitOnce rest c cutc
      (a :: p.1, p.2)

def getschemeAux (raw : List Char) : List Char → List Char → Except String (String × List Char)
  | _, [] => .ok ("", raw)
  | seen, c :: rest =>
    if ('a' ≤ c ∧ c ≤ 'z') ∨ ('A' ≤ c ∧ c ≤ 'Z') then getschemeAux raw (seen ++ [c]) rest
    else if ('0' ≤ c ∧ c ≤ '9') ∨ c = '+' ∨ c = '-' ∨ c = '.' then
      if seen = [] then .ok ("", raw) else getschemeAux raw (seen ++ [c]) rest
    else if c = ':' then
      if seen = [] then .error "missing protocol scheme"
      else .ok (String.mk seen, rest)
    else .ok ("", raw)

/-- Go `getscheme`: splits a leading `scheme:`; a leading digit-class
character or any invalid character means no scheme; a leading `:` errors. -/
def getscheme (raw : List Char) : Except String (String × List Char) :=
  getschemeAux raw [] raw

/-- Go `stringContainsCTLByte`. -/
def containsCTLByte (s : List Char) : Bool :=
  s.any fun c => decide (c.toNat < 0x20 ∨ c.toNat = 0x7f)

/-- Go `parseHost` (non-zone paths): bracketed hosts need a closing `]` and a
valid optional port after it, unbracketed hosts need a valid optional port
after the first `:`, then the whole host is validated/decoded byte-wise. -/
def parseHostFn (host : List Char) : Except String String :=
  match host with
  | '[' :: _ =>
    match lastIndexOf host ']' with
    | none => .error "missing ']' in host"
    | some i =>
      if validOptionalPort (host.drop (i + 1)) then
        do let h ← unescapeHostAux host; .ok (String.mk h)
      else .error "invalid port after host"
  | _ =>
    match firstIndexOf host ':' with
    | some i =>
      if validOptionalPort (host.drop i) then
        do let h ← unescapeHostAux host; .ok (String.mk h)
      else .error "invalid port after host"
    | none => do let h ← unescapeHostAux host; .ok (String.mk h)

/-- Go `parseAuthority`: the part after the last `@` is the host; a userinfo
part before it must pass `validUserinfo` and unescape cleanly. -/
def parseAuthority (authority : List Char) : Except String String :=
  match lastIndexOf authority '@' with
  | none => parseHostFn authority
  | some i => do
    let h ← parseHostFn (authority.drop (i + 1))
    let userinfo := authority.take i
    if validUserinfo userinfo then
      if percentWellFormed userinfo then .ok h
      else .error "invalid URL escape"
    else .error "net/url: invalid userinfo"

/-- The result of Go `url.ParseRequestURI` as far as `main.go` consumes it.
`rootless` is Go's `URL.Opaque`: the remainder of a scheme-ful URI whose
scheme is not followed by `/`. -/
structure GoURL where
  scheme : String
  rootless : String
  host : String
  path : String
  forceQuery : Bool
  rawQuery : String
deriving DecidableEq, Repr

/-- ASCII lowercasing, Go `strings.ToLower` on the (always ASCII) scheme. -/
def toLowerString (s : String) : String := String.mk (s.toList.map Char.toLower)

/-- Go 1.12 `url.ParseRequestURI` (`parse` with `viaRequest = true`). -/
def parseRequestURI (rawurl : String) : Except String GoURL :=
  let raw := rawurl.toList
  if containsCTLByte raw then .error "net/url: invalid control character in URL"
  else if rawurl = "" then .error "empty url"
  else if rawurl = "*" then .ok ⟨"", "", "", "*", false, ""⟩
  else do
    let (scheme0, rest0) ← getscheme raw
    let scheme := toLowerString scheme0
    let (rest1, forceQuery, rawQuery) :=
      if (match rest0.getLast? with | some '?' => true | _ => false) &&
          !(rest0.dropLast.contains '?') then
        (rest0.dropLast, true, ([] : List Char))
      else
        let p := splitOnce rest0 '?' true
        (p.1, false, p.2)
    match rest1 with
    | '/' :: _ =>
      if (scheme != "") && (match rest1 with | '/' :: '/' :: _ => true | _ => false) then do
        let p := splitOnce (rest1.drop 2) '/' false
        let h ← parseAuthority p.1
        let pth ← unescapePathAux p.2
        .ok ⟨scheme, "", h, String.mk pth, forceQuery, String.mk rawQuery⟩
      else do
        let pth ← unescapePathAux rest1
        .ok ⟨scheme, "", "", String.mk pth, forceQuery, String.mk rawQuery⟩
    | _ =>
      if scheme ≠ "" then .ok ⟨scheme, String.mk rest1, "", "", forceQuery, String.mk rawQuery⟩
      else .error "invalid URI for request"

/-- Go `stripPort`. -/
def stripPort (hostport : List Char) : List Char :=
  match firstIndexOf hostport ':' with
  | none => hostport
  | some colon =>
    match firstIndexOf hostport ']' with
    | some i =>
      match hostport.take i with
      | '[' :: rest => rest
      | h => h
    | none => hostport.take colon

/-- Go 1.12 `URL.Hostname()`: the host with any port stripped. -/
def hostnameOf (u : GoURL) : String := String.mk (stripPort u.host.toList)

/-- The result `main` produces when the consul address fails validation
(lines 47-51). -/
def consulInvalidResult (consulAddr : String) : RunResult :=
  ⟨1, some ("provided consul url is invalid, got '" ++ consulAddr ++ "'"), []⟩

/-- The result `main` produces when the target URI fails validation
(lines 53-57). -/
def targetInvalidResult (targetURI : String) : RunResult :=
  ⟨1, some ("provided target url is invalid, got '" ++ targetURI ++ "'"), []⟩

/-- `main` (lines 47-178) given the already-resolved flag/environment values
of `-consul-addr` and `-target`: validate the consul address (parse error,
empty scheme or empty `Hostname()` rejects), validate the target URI (parse
error, empty scheme or empty `Host` rejects), build the `Target`, then run
the rest of the pipeline. -/
def mainModel (consulAddr targetURI : String) (w : PipelineWorld) : RunResult :=
  match parseRequestURI consulAddr with
  | .error _ => consulInvalidResult consulAddr
  | .ok parsedConsulAddr =>
    if parsedConsulAddr.scheme = "" ∨ hostnameOf parsedConsulAddr = "" then
      consulInvalidResult consulAddr
    else
      match parseRequestURI targetURI with
      | .error _ => targetInvalidResult targetURI
      | .ok parsedTargetURI =>
        if parsedTargetURI.scheme = "" ∨ parsedTargetURI.host = "" then
          targetInvalidResult targetURI
        else
          runPipeline
            ⟨parsedTargetURI.scheme, parsedTargetURI.host, parsedTargetURI.path,
              parsedTargetURI.rawQuery⟩ w

/-- The spec-side notion of a well-formed target: an absolute URI with a
non-empty scheme and a non-empty host component, stated over the parser
model. -/
def isValidTargetURI (s : String) : Bool :=
  match parseRequestURI s with
  | .ok u => (u.scheme != "") && (u.host != "")
  | .error _ => false

/-- The consul-address validation of lines 47-51 fails. -/
def consulAddrCheckFails (s : String) : Bool :=
  match parseRequestURI s with
  | .error _ => true
  | .ok u => (u.scheme == "") || (hostnameOf u == "")

/-!
## Witness fixtures

Concrete worlds and targets used to instantiate the claim theorems below. -/

/-- A world in which every external step succeeds and the restored and live
listings agree: the pipeline runs to a successful upload. -/
def passWorld : PipelineWorld :=
  ⟨none, none, none, none, none, none, none, [1, 2], [⟨"a", 10⟩], [⟨"a", 10⟩], 5,
    none, fun _ => none⟩

/-- A world whose live listing has key `"b"` that the restored listing lacks:
verification fails. -/
def missWorld : PipelineWorld :=
  ⟨none, none, none, none, none, none, none, [1, 2], [⟨"a", 10⟩],
    [⟨"a", 10⟩, ⟨"b", 20⟩], 5, none, fun _ => none⟩

def s3Target : Target := ⟨"s3", "bucket", "/prefix", ""⟩

def gcsTarget : Target := ⟨"gcs", "bucket", "/prefix", ""⟩

/-- An upload oracle that fails every attempt. -/
def failingPut : Nat → Option String := fun _ => some "upload failed"

/-- An upload oracle whose first attempt fails and second succeeds. -/
def retryOncePut : Nat → Option String := fun n => if n = 0 then some "transient" else none

/-!
## Claims
-/

/-- C1: if some key of the live listing is absent from the restored listing,
the verdict is `failedMissing` at a genuinely missing key (so the reported
missing-key set is populated) and every run with these listings exits 1;
conversely, if the restored key set contains every live key and the totals
are within the 1000-byte tolerance, the verdict is `passed`. -/
theorem C1_missing_key_fails_run (snap live : List KV) :
    ((∃ kv ∈ live, kv.key ∉ snap.map KV.key) →
      (∃ k, verify snap live = .failedMissing k ∧ k ∈ live.map KV.key ∧
        k ∉ snap.map KV.key) ∧
      ∀ (target : Target) (w : PipelineWorld), w.snapshotKvs = snap → w.liveKvs = live →
        (runPipeline target w).exitCode = 1) ∧
    ((∀ kv ∈ live, kv.key ∈ snap.map KV.key) →
      (totalBytes live - totalBytes snap).natAbs ≤ 1000 →
      verify snap live = .passed) := by
  constructor
  · intro h
    obtain ⟨k, hk, hmem, hnot⟩ := verify_missing snap live h
    refine ⟨⟨k, hk, hmem, hnot⟩, ?_⟩
    intro target w hs hl
    have hne : verify w.snapshotKvs w.liveKvs ≠ .passed := by
      rw [hs, hl, hk]; intro hc; cases hc
    exact (runPipeline_verify_failed target w hne).1
  · intro hcov hsz
    exact (verify_passed_iff snap live).mpr ⟨hcov, hsz⟩

theorem C1_witness :
    (∃ k, verify [(⟨"a", 10⟩ : KV)] [⟨"a", 10⟩, ⟨"b", 20⟩] = .failedMissing k ∧
      k ∈ ([(⟨"a", 10⟩ : KV), ⟨"b", 20⟩].map KV.key) ∧
      k ∉ ([(⟨"a", 10⟩ : KV)].map KV.key)) ∧
    verify [(⟨"a", 10⟩ : KV), ⟨"b", 20⟩] [⟨"a", 10⟩, ⟨"b", 20⟩] = .passed := by
  constructor
  · exact ((C1_missing_key_fails_run [⟨"a", 10⟩] [⟨"a", 10⟩, ⟨"b", 20⟩]).1 (by decide)).1
  · exact (C1_missing_key_fails_run [⟨"a", 10⟩, ⟨"b", 20⟩] [⟨"a", 10⟩, ⟨"b", 20⟩]).2
      (by decide) (by decide)

/-- C2: for listings with identical key sets, the run fails exactly when the
totals differ by more than 1000 bytes (with the `failedSize` verdict carrying
the two totals, and exit code 1), and the verdict is `passed` when the
difference is at most 1000 bytes. -/
theorem C2_size_tolerance (snap live : List KV)
    (hls : ∀ k ∈ live.map KV.key, k ∈ snap.map KV.key)
    (hsl : ∀ k ∈ snap.map KV.key, k ∈ live.map KV.key) :
    ((totalBytes live - totalBytes snap).natAbs > 1000 →
      verify snap live = .failedSize (totalBytes snap) (totalBytes live) ∧
      ∀ (target : Target) (w : PipelineWorld), w.snapshotKvs = snap → w.liveKvs = live →
        (runPipeline target w).exitCode = 1) ∧
    ((totalBytes live - totalBytes snap).natAbs ≤ 1000 →
      verify snap live = .passed) := by
  have hcov : coverageOk snap live := fun kv hkv =>
    hls kv.key (List.mem_map.mpr ⟨kv, hkv, rfl⟩)
  constructor
  · intro hgt
    have hv : verify snap live = .failedSize (totalBytes snap) (totalBytes live) := by
      rw [verify_covered snap live hcov, if_pos hgt]
    refine ⟨hv, ?_⟩
    intro target w hs hl
    have hne : verify w.snapshotKvs w.liveKvs ≠ .passed := by
      rw [hs, hl, hv]; intro hc; cases hc
    exact (runPipeline_verify_failed target w hne).1
  · intro hle
    rw [verify_covered snap live hcov, if_neg (by omega)]

theorem C2_witness :
    verify [(⟨"a", 10⟩ : KV)] [⟨"a", 2000⟩] = .failedSize 10 2000 ∧
    verify [(⟨"a", 10⟩ : KV)] [⟨"a", 500⟩] = .passed := by
  constructor
  · exact ((C2_size_tolerance [⟨"a", 10⟩] [⟨"a", 2000⟩] (by decide) (by decide)).1
      (by decide)).1
  · exact (C2_size_tolerance [⟨"a", 10⟩] [⟨"a", 500⟩] (by decide) (by decide)).2 (by decide)

/-- C3: the verdict is `passed` exactly when the coverage check and the size
check both hold, so the two checks are independent and either one failing
makes the verdict a failure. -/
theorem C3_dual_independent_checks (snap live : List KV) :
    (verify snap live = .passed ↔ coverageOk snap live ∧ sizeOk snap live) ∧
    (¬ coverageOk snap live → verify snap live ≠ .passed) ∧
    (¬ sizeOk snap live → verify snap live ≠ .passed) := by
  refine ⟨verify_passed_iff snap live, ?_, ?_⟩
  · intro h hc
    exact h ((verify_passed_iff snap live).mp hc).1
  · intro h hc
    exact h ((verify_passed_iff snap live).mp hc).2

theorem C3_witness :
    verify ([] : List KV) [⟨"a", 1⟩] ≠ .passed ∧
    verify [(⟨"a", 5000⟩ : KV)] [⟨"a", 1⟩] ≠ .passed := by
  constructor
  · exact (C3_dual_independent_checks [] [⟨"a", 1⟩]).2.1 (by decide)
  · exact (C3_dual_independent_checks [⟨"a", 5000⟩] [⟨"a", 1⟩]).2.2 (by decide)

/-- C4: when every attempt fails, `sendToS3` issues exactly 4 `PutObject`
calls (1 initial + 3 retries) with a warning and a fixed 5-second sleep
between consecutive attempts (so each failed attempt before the last is
warned, the last is not), returns the error of the last attempt, and every
run using such an oracle exits 1. -/
theorem C4_retry_exhaustion (target : Target) (snapshotKey : String) (snapshot : List Nat)
    (put : Nat → Option String) (hfail : ∀ n, n ≤ 3 → (put n).isSome = true) :
    sendToS3 target snapshotKey snapshot none put =
      (put 3,
       [Ev.putObject target.base (target.path ++ "/" ++ snapshotKey) snapshot,
        Ev.warnRetry 1, Ev.sleepRetry 5,
        Ev.putObject target.base (target.path ++ "/" ++ snapshotKey) snapshot,
        Ev.warnRetry 2, Ev.sleepRetry 5,
        Ev.putObject target.base (target.path ++ "/" ++ snapshotKey) snapshot,
        Ev.warnRetry 3, Ev.sleepRetry 5,
        Ev.putObject target.base (target.path ++ "/" ++ snapshotKey) snapshot]) ∧
    (put 3).isSome = true ∧
    ∀ (t2 : Target) (w : PipelineWorld), w.putResult = put →
      (runPipeline t2 w).exitCode = 1 := by
  refine ⟨sendToS3_allFail target snapshotKey snapshot put
      (hfail 0 (by omega)) (hfail 1 (by omega)) (hfail 2 (by omega)) (hfail 3 (by omega)),
    hfail 3 (by omega), ?_⟩
  intro t2 w hput
  apply runPipeline_allFail
  rw [hput]
  exact hfail

theorem C4_witness :
    sendToS3 s3Target "1.snap" [9] none failingPut =
      (failingPut 3,
       [Ev.putObject "bucket" "/prefix/1.snap" [9],
        Ev.warnRetry 1, Ev.sleepRetry 5,
        Ev.putObject "bucket" "/prefix/1.snap" [9],
        Ev.warnRetry 2, Ev.sleepRetry 5,
        Ev.putObject "bucket" "/prefix/1.snap" [9],
        Ev.warnRetry 3, Ev.sleepRetry 5,
        Ev.putObject "bucket" "/prefix/1.snap" [9]]) :=
  (C4_retry_exhaustion s3Target "1.snap" [9] failingPut (fun _ _ => rfl)).1

/-- C5: no upload call ever occurs before the live key listing that completes
the verification comparison; any upload call implies the verdict was
`passed`; and a failed verdict means exit 1 with zero upload calls. -/
theorem C5_verify_completes_before_upload (target : Target) (w : PipelineWorld) :
    (((runPipeline target w).trace.takeWhile fun e => !isListLiveEv e).all
        (fun e => !isPutEv e) = true) ∧
    ((runPipeline target w).trace.any isPutEv = true →
      verify w.snapshotKvs w.liveKvs = .passed) ∧
    (verify w.snapshotKvs w.liveKvs ≠ .passed →
      (runPipeline target w).exitCode = 1 ∧
        (runPipeline target w).trace.any isPutEv = false) := by
  refine ⟨runPipeline_no_put_before_listing target w, ?_,
    runPipeline_verify_failed target w⟩
  intro h
  exact (runPipeline_put_implies_passed target w h).1

theorem C5_witness :
    ((runPipeline s3Target missWorld).exitCode = 1 ∧
      (runPipeline s3Target missWorld).trace.any isPutEv = false) ∧
    ((runPipeline s3Target missWorld).trace.takeWhile fun e => !isListLiveEv e).all
      (fun e => !isPutEv e) = true :=
  ⟨(C5_verify_completes_before_upload s3Target missWorld).2.2 (by decide),
   (C5_verify_completes_before_upload s3Target missWorld).1⟩

/-- C6: a target whose scheme is not `"s3"` is rejected by the dispatch with
the distinct unsupported-target error and an empty call list (no provider
client, no attempt, no retry), and every run with such a target exits 1
without a single upload call. -/
theorem C6_unsupported_provider (target : Target) (h : target.type ≠ "s3") :
    (∀ (snapshotKey : String) (snapshot : List Nat) (sessionErr : Option String)
        (put : Nat → Option String),
      dispatchUpload target snapshotKey snapshot sessionErr put =
        (some ("target type of " ++ target.type ++ " is not supported"), [])) ∧
    ∀ w : PipelineWorld, (runPipeline target w).exitCode = 1 ∧
      (runPipeline target w).trace.any isPutEv = false := by
  refine ⟨?_, fun w => runPipeline_unsupported target w h⟩
  intro k s se p
  simp [dispatchUpload, h]

theorem C6_witness :
    dispatchUpload gcsTarget "1.snap" [] none (fun _ => none) =
      (some "target type of gcs is not supported", []) ∧
    (runPipeline gcsTarget passWorld).exitCode = 1 ∧
    (runPipeline gcsTarget passWorld).trace.any isPutEv = false :=
  ⟨(C6_unsupported_provider gcsTarget (by decide)).1 "1.snap" [] none (fun _ => none),
   (C6_unsupported_provider gcsTarget (by decide)).2 passWorld⟩

/-- C7: an input that is not an absolute URI with non-empty scheme and
non-empty host (per the parser model) makes `main` exit 1 with an empty call
trace (no network activity); when the consul address itself passes its check,
the reported error is the invalid-target message. -/
theorem C7_invalid_target_rejected (consulAddr targetURI : String) (w : PipelineWorld)
    (ht : isValidTargetURI targetURI = false) :
    (mainModel consulAddr targetURI w).exitCode = 1 ∧
    (mainModel consulAddr targetURI w).trace = [] ∧
    (consulAddrCheckFails consulAddr = false →
      mainModel consulAddr targetURI w = targetInvalidResult targetURI) := by
  cases hc : parseRequestURI consulAddr with
  | error e =>
    simp only [mainModel, hc]
    refine ⟨rfl, rfl, ?_⟩
    intro hcf
    simp [consulAddrCheckFails, hc] at hcf
  | ok cu =>
    simp only [mainModel, hc]
    by_cases hcv : cu.scheme = "" ∨ hostnameOf cu = ""
    · rw [if_pos hcv]
      refine ⟨rfl, rfl, ?_⟩
      intro hcf
      exfalso
      simp only [consulAddrCheckFails, hc] at hcf
      rcases hcv with h1 | h1 <;> simp [h1] at hcf
    · rw [if_neg hcv]
      cases htp : parseRequestURI targetURI with
      | error e =>
        exact ⟨rfl, rfl, fun _ => rfl⟩
      | ok tu =>
        have hbad : tu.scheme = "" ∨ tu.host = "" := by
          simp only [isValidTargetURI, htp] at ht
          rcases Bool.and_eq_false_iff.mp ht with h1 | h1
          · left; simpa using h1
          · right; simpa using h1
        dsimp only
        rw [if_pos hbad]
        exact ⟨rfl, rfl, fun _ => rfl⟩

theorem C7_witness :
    isValidTargetURI "not-a-url" = false ∧
    isValidTargetURI "" = false ∧
    mainModel "http://localhost:8500" "not-a-url" passWorld =
      targetInvalidResult "not-a-url" ∧
    (mainModel "http://localhost:8500" "" passWorld).exitCode = 1 ∧
    (mainModel "http://localhost:8500" "" passWorld).trace = [] := by
  refine ⟨rfl, rfl, ?_, ?_, ?_⟩
  · exact (C7_invalid_target_rejected "http://localhost:8500" "not-a-url" passWorld rfl).2.2 rfl
  · exact (C7_invalid_target_rejected "http://localhost:8500" "" passWorld rfl).1
  · exact (C7_invalid_target_rejected "http://localhost:8500" "" passWorld rfl).2.1

/-- C8: every successful run went through the `"s3"` branch, issued at least
one upload call, and every upload call it issued addressed bucket
`target.base` with object key `target.path ++ "/" ++ artifactName now`, where
the artifact name is the decimal unix-seconds clock reading followed by
`".snap"`, and carried the snapshot bytes. -/
theorem C8_artifact_naming (target : Target) (w : PipelineWorld)
    (h0 : (runPipeline target w).exitCode = 0) :
    target.type = "s3" ∧
    (runPipeline target w).trace.any isPutEv = true ∧
    ∀ b k body, Ev.putObject b k body ∈ (runPipeline target w).trace →
      b = target.base ∧ k = target.path ++ "/" ++ artifactName w.now ∧
        body = w.snapshotBytes := by
  obtain ⟨hv, ht, hsess, hnone, htr⟩ := runPipeline_exit_zero target w h0
  refine ⟨ht, ?_, ?_⟩
  · rw [htr, sendToS3_session_ok_eq]
    simp [preTrace, isPutEv]
  · intro b k body hmem
    rw [htr, List.mem_append] at hmem
    rcases hmem with hmem | hmem
    · exfalso
      revert hmem
      simp [preTrace]
    · exact sendToS3_put_mem target (artifactName w.now) w.snapshotBytes none
        w.putResult b k body hmem

theorem C8_witness :
    s3Target.type = "s3" ∧
    (runPipeline s3Target passWorld).trace.any isPutEv = true ∧
    ("bucket" = s3Target.base ∧
      "/prefix/5.snap" = s3Target.path ++ "/" ++ artifactName passWorld.now ∧
      [1, 2] = passWorld.snapshotBytes) := by
  have h := C8_artifact_naming s3Target passWorld rfl
  exact ⟨h.1, h.2.1, h.2.2 "bucket" "/prefix/5.snap" [1, 2] (by decide)⟩

/-- C9: the upload dispatcher never mutates the snapshot blob: every
`PutObject` call in the `sendToS3` trace submits exactly the snapshot's byte
sequence, because each attempt reads a fresh reader positioned at zero over
the same immutable bytes — so the bytes of attempt `n+1` equal the bytes of
attempt `n` no matter how much a failed attempt consumed. -/
theorem C9_blob_never_mutated (target : Target) (snapshotKey : String) (snapshot : List Nat)
    (sessionErr : Option String) (put : Nat → Option String) :
    ∀ b k body,
      Ev.putObject b k body ∈ (sendToS3 target snapshotKey snapshot sessionErr put).2 →
      body = snapshot := by
  intro b k body h
  exact (sendToS3_put_mem target snapshotKey snapshot sessionErr put b k body h).2.2

theorem C9_witness : ([7, 8] : List Nat) = [7, 8] :=
  C9_blob_never_mutated s3Target "1.snap" [7, 8] none retryOncePut
    "bucket" "/prefix/1.snap" [7, 8] (by decide)

/-- C10: the coverage check is one-directional: extra restored keys never
fail it, so when the restored key set strictly contains the live key set and
the totals are within the 1000-byte tolerance, the verdict is `passed`. -/
theorem C10_superset_passes (snap live : List KV)
    (hsup : ∀ k ∈ live.map KV.key, k ∈ snap.map KV.key)
    (hstrict : ∃ k ∈ snap.map KV.key, k ∉ live.map KV.key)
    (hsize : sizeOk snap live) :
    verify snap live = .passed := by
  refine (verify_passed_iff snap live).mpr ⟨?_, hsize⟩
  intro kv hkv
  exact hsup kv.key (List.mem_map.mpr ⟨kv, hkv, rfl⟩)

theorem C10_witness :
    verify [(⟨"a", 10⟩ : KV), ⟨"b", 20⟩] [⟨"a", 10⟩] = .passed :=
  C10_superset_passes [⟨"a", 10⟩, ⟨"b", 20⟩] [⟨"a", 10⟩]
    (by decide) (by decide) (by decide)
